import Mathlib

/-!
Shallow embedding of the DEX Order Execution Engine (TypeScript) in Lean 4.

Each definition mirrors one function or class of the source repository:
* `src/errors/index.ts` — error categories, `classifyError`, `withRetry`,
  `CircuitBreaker`;
* `src/routing/DexRouter.ts` — `getQuotes`, `selectBestDex`;
* `src/execution/OrderExecutor.ts` — constructor defaulting,
  `calculateMinAmountOut`, `executeSwap`;
* `src/api/FastifyServer.ts` — `validateOrder`, `handleOrderSubmission`;
* `src/api/WebSocketManager.ts` — connection bookkeeping and status emission.

Numbers that the source manipulates as JavaScript `number` are modelled as
rationals (`ℚ`); amounts produced by `Math.floor` are modelled as `ℤ`.
Promises are modelled by explicit outcome values (`Option`/`Except`), and
side effects by explicit traces recorded in the return value.
-/

/-! ## String helpers

JavaScript's `String.prototype.includes` (substring test) modelled over
`List Char`.  `strIncludes needle hay` is `hay.includes(needle)`.
-/

/-- `matchesAt needle hay` — `needle` matches at the start of `hay`. -/
def matchesAt : List Char → List Char → Bool
  | [], _ => true
  | _ :: _, [] => false
  | c :: cs, d :: ds => c = d && matchesAt cs ds

/-- `hasSub needle hay` — `needle` occurs contiguously inside `hay`. -/
def hasSub (needle : List Char) : List Char → Bool
  | [] => matchesAt needle []
  | d :: ds => matchesAt needle (d :: ds) || hasSub needle ds

/-- JS `hay.includes(needle)`. -/
def strIncludes (needle hay : String) : Bool :=
  hasSub needle.toList hay.toList

/-- JS `s.toLowerCase()`: the engine's error messages are ASCII, for which
`toLowerCase` lowers each character independently. -/
def lowerCase (s : String) : String :=
  ⟨s.toList.map Char.toLower⟩

/-- JS `s.trim()`: strip leading and trailing whitespace. -/
def jsTrim (s : String) : String :=
  ⟨((s.toList.dropWhile Char.isWhitespace).reverse.dropWhile
    Char.isWhitespace).reverse⟩

/-! ## Error model — `src/errors/index.ts` -/

/-- `enum ErrorCategory` (src/errors/index.ts lines 509–514). -/
inductive ErrorCategory
  | VALIDATION
  | ROUTING
  | EXECUTION
  | SYSTEM
deriving DecidableEq, Repr

/-- `class CategorizedError` (lines 519–556).  The `context` map, `name`
and `timestamp` fields play no role in any claim and are omitted. -/
structure CategorizedError where
  message : String
  category : ErrorCategory
  isRetryable : Bool
deriving DecidableEq, Repr

/-- `class ValidationError extends CategorizedError` (lines 561–565):
category VALIDATION, never retryable. -/
def ValidationError (message : String) : CategorizedError :=
  { message := message, category := .VALIDATION, isRetryable := false }

/-- `class RoutingError extends CategorizedError` (lines 570–574):
category ROUTING, retryable. -/
def RoutingError (message : String) : CategorizedError :=
  { message := message, category := .ROUTING, isRetryable := true }

/-- `class ExecutionError extends CategorizedError` (lines 579–583):
category EXECUTION, retryable. -/
def ExecutionError (message : String) : CategorizedError :=
  { message := message, category := .EXECUTION, isRetryable := true }

/-- `class SystemError extends CategorizedError` (lines 588–592):
category SYSTEM, retryable unless flagged otherwise (the source default
for `isRetryable` is `true`). -/
def SystemError (message : String) (isRetryable : Bool) : CategorizedError :=
  { message := message, category := .SYSTEM, isRetryable := isRetryable }

/-- A thrown JavaScript error: either a plain `Error` (name, message) or a
`CategorizedError` (the `instanceof CategorizedError` test distinguishes
the two). -/
inductive JsError
  | plain (name message : String)
  | categorized (e : CategorizedError)
deriving DecidableEq, Repr

/-- The `message` property of a thrown error. -/
def JsError.message : JsError → String
  | .plain _ m => m
  | .categorized e => e.message

/-- `classifyError` (src/errors/index.ts lines 972–998): an already
categorized error is returned unchanged; otherwise the lower-cased message
is matched against substring buckets, in order:
validation/invalid/required → VALIDATION; quote/dex/routing → ROUTING;
transaction/swap/slippage → EXECUTION; anything else → SYSTEM. -/
def classifyError (error : JsError) : CategorizedError :=
  match error with
  | .categorized e => e
  | .plain _name msg =>
    let message := lowerCase msg
    if strIncludes "validation" message || strIncludes "invalid" message ||
        strIncludes "required" message then
      ValidationError msg
    else if strIncludes "quote" message || strIncludes "dex" message ||
        strIncludes "routing" message then
      RoutingError msg
    else if strIncludes "transaction" message || strIncludes "swap" message ||
        strIncludes "slippage" message then
      ExecutionError msg
    else
      SystemError msg true

/-! ## Routing — `src/routing/DexRouter.ts` -/

/-- `type DexType = 'raydium' | 'meteora'` (src/types). -/
inductive DexType
  | raydium
  | meteora
deriving DecidableEq, Repr

/-- `interface DexQuote` (src/types): prices and amounts are JS numbers,
modelled as rationals. -/
structure DexQuote where
  dex : DexType
  price : ℚ
  fee : ℚ
  effectivePrice : ℚ
  poolId : Option String
  estimatedOutput : ℚ
deriving DecidableEq, Repr

/-- `getQuotes` (src/routing/DexRouter.ts lines 47–93).  The two venue
calls run under `Promise.allSettled`; each argument is the outcome of one
call, `none` standing for a rejection (venue failure or `quoteTimeout`
expiry).  Fulfilled quotes are collected in venue order
(raydium first, then meteora); if none survives, the function throws
`'Failed to get quotes from any DEX'`. -/
def getQuotes (raydiumResult meteoraResult : Option DexQuote) :
    Except String (List DexQuote) :=
  let quotes := [raydiumResult, meteoraResult].filterMap id
  if quotes = [] then
    .error "Failed to get quotes from any DEX"
  else
    .ok quotes

/-- The accumulator step of `selectBestDex`'s `reduce`
(src/routing/DexRouter.ts lines 110–112):
`current.effectivePrice > best.effectivePrice ? current : best`. -/
def bestStep (best current : DexQuote) : DexQuote :=
  if best.effectivePrice < current.effectivePrice then current else best

/-- `selectBestDex` (src/routing/DexRouter.ts lines 103–118): throws
`'No quotes available for comparison'` on an empty array (modelled as
`none`), otherwise `Array.prototype.reduce` without an initial value,
i.e. a left fold over the tail starting from the head. -/
def selectBestDex (quotes : List DexQuote) : Option DexQuote :=
  match quotes with
  | [] => none
  | q :: rest => some (rest.foldl bestStep q)

/-! ## Execution — `src/execution/OrderExecutor.ts` -/

/-- `interface OrderExecutorConfig` (lines 8–11): both fields optional. -/
structure OrderExecutorConfig where
  defaultSlippage : Option ℚ
  maxSlippage : Option ℚ
deriving DecidableEq, Repr

/-- JavaScript `a || d` for an optional numeric `a`: an absent value and
the falsy number `0` both yield the default `d`. -/
def jsNumOr (a : Option ℚ) (d : ℚ) : ℚ :=
  match a with
  | none => d
  | some v => if v = 0 then d else v

/-- The resolved configuration held by an `OrderExecutor` instance. -/
structure OrderExecutor where
  defaultSlippage : ℚ
  maxSlippage : ℚ
deriving DecidableEq, Repr

/-- The `OrderExecutor` constructor (lines 25–34):
`this.defaultSlippage = config.defaultSlippage || 0.01` and
`this.maxSlippage = config.maxSlippage || 0.1`. -/
def mkOrderExecutor (config : OrderExecutorConfig) : OrderExecutor :=
  { defaultSlippage := jsNumOr config.defaultSlippage (1/100),
    maxSlippage := jsNumOr config.maxSlippage (1/10) }

/-- `calculateMinAmountOut` (lines 147–150):
`Math.floor(estimatedOutput * (1 - slippage))`. -/
def calculateMinAmountOut (estimatedOutput slippage : ℚ) : ℤ :=
  ⌊estimatedOutput * (1 - slippage)⌋

/-- `interface SwapParams` (src/types); `minAmountOut` is the floored
integer amount. -/
structure SwapParams where
  dex : DexType
  tokenIn : String
  tokenOut : String
  amount : ℚ
  minAmountOut : ℤ
  poolId : Option String
deriving DecidableEq, Repr

/-- `interface SwapResult` (src/types). -/
structure SwapResult where
  txHash : String
  executedPrice : ℚ
  inputAmount : ℚ
  outputAmount : ℚ
  fee : ℚ
  timestamp : ℚ
deriving DecidableEq, Repr

/-- The template literal thrown by `executeSwap` when the effective
slippage is out of range (lines 62–66). -/
def slippageRangeMessage (slippage maxSlippage : ℚ) : String :=
  "Slippage " ++ toString slippage ++ " is outside acceptable range [0, " ++
    toString maxSlippage ++ "]"

/-- The string rendering of a `DexType` (the TS value itself). -/
def DexType.tag : DexType → String
  | .raydium => "raydium"
  | .meteora => "meteora"

/-- `executeSwap` (src/execution/OrderExecutor.ts lines 51–137).  The
venue adapter (`client.executeSwap`) is passed in as a function; the
second component of the result records every adapter invocation, so that
"rejects before invoking any venue adapter" is the statement that the
trace is empty.  Control flow mirrors the source: default the slippage
(`slippage !== undefined ? slippage : this.defaultSlippage`), range-check
it, compute `minAmountOut`, dispatch, and translate an adapter error whose
message contains `'Slippage tolerance exceeded'`. -/
def executeSwap (this : OrderExecutor)
    (adapter : SwapParams → Except String SwapResult)
    (quote : DexQuote) (tokenIn tokenOut : String) (amount : ℚ)
    (slippage : Option ℚ) : Except String SwapResult × List SwapParams :=
  let effectiveSlippage :=
    match slippage with
    | some s => s
    | none => this.defaultSlippage
  if effectiveSlippage < 0 || this.maxSlippage < effectiveSlippage then
    (.error (slippageRangeMessage effectiveSlippage this.maxSlippage), [])
  else
    let minAmountOut := calculateMinAmountOut quote.estimatedOutput effectiveSlippage
    let swapParams : SwapParams :=
      { dex := quote.dex, tokenIn := tokenIn, tokenOut := tokenOut,
        amount := amount, minAmountOut := minAmountOut, poolId := quote.poolId }
    match adapter swapParams with
    | .ok result => (.ok result, [swapParams])
    | .error msg =>
      if strIncludes "Slippage tolerance exceeded" msg then
        (.error ("Slippage tolerance exceeded on " ++ quote.dex.tag ++ ": " ++ msg),
          [swapParams])
      else
        (.error msg, [swapParams])

/-! ## Retry — `src/errors/index.ts` lines 597–686 -/

/-- `interface RetryConfig` (lines 597–602). -/
structure RetryConfig where
  maxAttempts : ℕ
  initialDelay : ℚ
  backoffMultiplier : ℚ
  maxDelay : ℚ
deriving DecidableEq, Repr

/-- `DEFAULT_RETRY_CONFIG` (lines 607–612). -/
def DEFAULT_RETRY_CONFIG : RetryConfig :=
  { maxAttempts := 3, initialDelay := 1000, backoffMultiplier := 2,
    maxDelay := 4000 }

/-- `calculateBackoffDelay` (lines 620–623):
`min(initialDelay * multiplier^(attempt-1), maxDelay)` for a 1-indexed
attempt. -/
def calculateBackoffDelay (attempt : ℕ) (config : RetryConfig) : ℚ :=
  min (config.initialDelay * config.backoffMultiplier ^ (attempt - 1))
    config.maxDelay

/-- The default `shouldRetry` predicate of `withRetry` (lines 646–648):
`error instanceof CategorizedError && error.isRetryable`. -/
def defaultShouldRetry (e : JsError) : Bool :=
  match e with
  | .categorized c => c.isRetryable
  | .plain _ _ => false

/-- The retry loop of `withRetry` (lines 652–686).  `fn attempt` is the
outcome of the wrapped async function on its `attempt`-th invocation
(1-indexed).  The result pairs the value returned or error thrown with
the number of invocations of `fn`; `.error none` models the dead-code
`throw lastError!` reached only when `maxAttempts < 1` (no attempt ran,
`lastError` undefined).  Backoff waiting affects only timing and is not
modelled. -/
def runRetry {T : Type} (fn : ℕ → Except JsError T)
    (shouldRetry : JsError → Bool) (maxAttempts : ℕ) (attempt : ℕ) :
    Except (Option JsError) T × ℕ :=
  if attempt ≤ maxAttempts then
    match fn attempt with
    | .ok v => (.ok v, 1)
    | .error e =>
      if maxAttempts ≤ attempt || !shouldRetry e then
        (.error (some e), 1)
      else
        let r := runRetry fn shouldRetry maxAttempts (attempt + 1)
        (r.1, r.2 + 1)
  else
    (.error none, 0)
termination_by maxAttempts + 1 - attempt

/-- `withRetry` (lines 641–686) with an explicit `shouldRetry` and
config. -/
def withRetry {T : Type} (fn : ℕ → Except JsError T)
    (shouldRetry : JsError → Bool) (config : RetryConfig) :
    Except (Option JsError) T × ℕ :=
  runRetry fn shouldRetry config.maxAttempts 1

/-- `withRetry(fn)` with default options: default config and the default
`shouldRetry`. -/
def withRetryDefault {T : Type} (fn : ℕ → Except JsError T) :
    Except (Option JsError) T × ℕ :=
  withRetry fn defaultShouldRetry DEFAULT_RETRY_CONFIG

/-! ## Circuit breaker — `src/errors/index.ts` lines 691–871 -/

/-- `enum CircuitState` (lines 691–695). -/
inductive CircuitState
  | CLOSED
  | OPEN
  | HALF_OPEN
deriving DecidableEq, Repr

/-- `interface CircuitBreakerConfig` (lines 700–704); times are epoch
milliseconds, modelled as integers. -/
structure CircuitBreakerConfig where
  failureThreshold : ℕ
  resetTimeout : ℤ
  monitoringPeriod : ℤ
deriving DecidableEq, Repr

/-- `DEFAULT_CIRCUIT_CONFIG` (lines 709–713). -/
def DEFAULT_CIRCUIT_CONFIG : CircuitBreakerConfig :=
  { failureThreshold := 5, resetTimeout := 60000, monitoringPeriod := 120000 }

/-- The mutable fields of `class CircuitBreaker` (lines 718–730) together
with its construction-time `name` and `config`. -/
structure CircuitBreaker where
  name : String
  config : CircuitBreakerConfig
  state : CircuitState
  failureCount : ℕ
  lastFailureTime : ℤ
  nextAttemptTime : ℤ
deriving DecidableEq, Repr

/-- The `CircuitBreaker` constructor (lines 726–730). -/
def mkCircuitBreaker (name : String) (config : CircuitBreakerConfig) :
    CircuitBreaker :=
  { name := name, config := config, state := .CLOSED, failureCount := 0,
    lastFailureTime := 0, nextAttemptTime := 0 }

/-- `CircuitBreaker.open` (lines 836–848): records the reopening time. -/
def CircuitBreaker.openCircuit (cb : CircuitBreaker) (now : ℤ) : CircuitBreaker :=
  { cb with state := .OPEN, nextAttemptTime := now + cb.config.resetTimeout }

/-- `CircuitBreaker.reset` (lines 853–858). -/
def CircuitBreaker.resetCircuit (cb : CircuitBreaker) : CircuitBreaker :=
  { cb with
    state := .CLOSED, failureCount := 0, lastFailureTime := 0,
    nextAttemptTime := 0 }

/-- `CircuitBreaker.onSuccess` (lines 788–803): close after a half-open
probe, then zero the failure count when the last failure is outside the
monitoring period. -/
def CircuitBreaker.onSuccess (cb : CircuitBreaker) (now : ℤ) : CircuitBreaker :=
  let cb1 := if cb.state = .HALF_OPEN then cb.resetCircuit else cb
  if cb.config.monitoringPeriod < now - cb1.lastFailureTime then
    { cb1 with failureCount := 0 }
  else
    cb1

/-- `CircuitBreaker.onFailure` (lines 808–831): record the failure, then
open immediately from HALF_OPEN, or open from CLOSED once the threshold
is reached. -/
def CircuitBreaker.onFailure (cb : CircuitBreaker) (now : ℤ) : CircuitBreaker :=
  let cb1 := { cb with lastFailureTime := now, failureCount := cb.failureCount + 1 }
  if cb1.state = .HALF_OPEN then
    cb1.openCircuit now
  else if cb.config.failureThreshold ≤ cb1.failureCount then
    cb1.openCircuit now
  else
    cb1

/-- Outcome of one `CircuitBreaker.execute` call: either the fail-fast
rejection (underlying function NOT invoked) or an invocation of the
underlying function with the given success flag. -/
inductive CBResult
  | fastFail (e : CategorizedError)
  | invoked (success : Bool)
deriving DecidableEq, Repr

/-- The message of the fail-fast `SystemError` (lines 766–770). -/
def circuitOpenMessage (name : String) : String :=
  "Circuit breaker is OPEN for " ++ name

/-- `CircuitBreaker.execute` (lines 752–783).  `now` is `Date.now()` at
the time of the call; `fnSucceeds` tells whether the underlying function
would succeed if invoked.  While OPEN and before `nextAttemptTime`, the
call throws a non-retryable `SystemError` without touching the underlying
function or the breaker state; at or past `nextAttemptTime` it transitions
to HALF_OPEN and proceeds. -/
def CircuitBreaker.execute (cb : CircuitBreaker) (now : ℤ) (fnSucceeds : Bool) :
    CBResult × CircuitBreaker :=
  let admitted : Option CircuitBreaker :=
    if cb.state = .OPEN then
      if cb.nextAttemptTime ≤ now then some { cb with state := .HALF_OPEN }
      else none
    else
      some cb
  match admitted with
  | none => (.fastFail (SystemError (circuitOpenMessage cb.name) false), cb)
  | some cb1 =>
    if fnSucceeds then (.invoked true, cb1.onSuccess now)
    else (.invoked false, cb1.onFailure now)

/-- A sequence of failing `execute` calls at the given times. -/
def CircuitBreaker.failMany (cb : CircuitBreaker) (times : List ℤ) : CircuitBreaker :=
  times.foldl (fun s t => (s.execute t false).2) cb

/-! ## Submission endpoint — `src/api/FastifyServer.ts` -/

/-- `interface OrderRequest` (src/types).  The Fastify body schema already
enforces that the three mandatory fields are present with the right JSON
types and that `slippage`, when present, is a number, so the request is
modelled in typed form; `validateOrder`'s runtime presence/`typeof`
re-checks are then vacuous and the remaining checks are modelled below. -/
structure OrderRequest where
  tokenIn : String
  tokenOut : String
  amount : ℚ
  slippage : Option ℚ
deriving DecidableEq, Repr

/-- `validateOrder` (src/api/FastifyServer.ts lines 189–255) on a typed
request: the first violated rule's `ValidationError` message, or `none`
when validation passes.  Checks appear in source order; the
presence/`typeof`/finiteness checks cannot fire on the typed model
(`ℚ` has no NaN or infinities). -/
def validateOrder (order : OrderRequest) : Option String :=
  if order.amount ≤ 0 then
    some "amount must be greater than 0"
  else if (jsTrim order.tokenIn).length = 0 then
    some "tokenIn cannot be empty"
  else if (jsTrim order.tokenOut).length = 0 then
    some "tokenOut cannot be empty"
  else if order.tokenIn = order.tokenOut then
    some "tokenIn and tokenOut must be different"
  else
    match order.slippage with
    | some s => if s < 0 then some "slippage must be non-negative" else none
    | none => none

/-- Server-side configuration used by the endpoint
(`DEFAULT_SLIPPAGE`, `MAX_SLIPPAGE` from `src/config/env`). -/
structure ServerConfig where
  DEFAULT_SLIPPAGE : ℚ
  MAX_SLIPPAGE : ℚ
deriving DecidableEq, Repr

/-- The error frame sent on the stream by the catch branch of
`handleOrderSubmission` (lines 166–181). -/
structure ErrorFrame where
  code : String
  message : String
deriving DecidableEq, Repr

/-- Observable outcome of `handleOrderSubmission` (lines 95–182):
which side effects ran and what was sent on the stream. -/
structure SubmissionOutcome where
  errorFrame : Option ErrorFrame
  streamClosed : Bool
  orderCreated : Bool
  sentInitialResponse : Bool
  enqueued : Bool
  emittedPending : Bool
deriving DecidableEq, Repr

/-- `handleOrderSubmission` (src/api/FastifyServer.ts lines 95–182).
On any throw (in particular a `ValidationError` from `validateOrder` or
the endpoint's own slippage-range check) the catch branch sends
`{error:{code:'VALIDATION_ERROR',message},timestamp}` and closes the
socket; no order row is created and no job enqueued before validation
passes.  On success the order is created, the socket attached, the
initial `pending` response sent, the job enqueued and `pending` emitted
(downstream store/queue failures, which would also land in the catch
branch, are outside the scope of the modelled claims). -/
def handleOrderSubmission (config : ServerConfig) (orderRequest : OrderRequest) :
    SubmissionOutcome :=
  match validateOrder orderRequest with
  | some msg =>
    { errorFrame := some { code := "VALIDATION_ERROR", message := msg },
      streamClosed := true, orderCreated := false,
      sentInitialResponse := false, enqueued := false, emittedPending := false }
  | none =>
    let slippage := orderRequest.slippage.getD config.DEFAULT_SLIPPAGE
    if slippage < 0 || config.MAX_SLIPPAGE < slippage then
      { errorFrame := some
          { code := "VALIDATION_ERROR",
            message := "Slippage must be between 0 and " ++
              toString config.MAX_SLIPPAGE ++ ", got: " ++ toString slippage },
        streamClosed := true, orderCreated := false,
        sentInitialResponse := false, enqueued := false, emittedPending := false }
    else
      { errorFrame := none, streamClosed := false, orderCreated := true,
        sentInitialResponse := true, enqueued := true, emittedPending := true }

/-! ## Status stream hub — `src/api/WebSocketManager.ts` -/

/-- `class WebSocketManager`: `connections: Map<string, Set<WebSocket>>`.
A WebSocket handle is modelled by a numeric identifier; the `Map` by an
association list in insertion order (keys unique by construction) and
each `Set` by a duplicate-free list in insertion order. -/
structure WebSocketManager where
  connections : List (String × List ℕ)
deriving DecidableEq, Repr

/-- `Map.prototype.get` over the association list. -/
def mapGet (l : List (String × List ℕ)) (orderId : String) : Option (List ℕ) :=
  match l with
  | [] => none
  | (k, v) :: rest => if k = orderId then some v else mapGet rest orderId

/-- The subscriber set registered for an order (empty when absent). -/
def WebSocketManager.subscribers (m : WebSocketManager) (orderId : String) :
    List ℕ :=
  (mapGet m.connections orderId).getD []

/-- `removeConnection` (src/api/WebSocketManager.ts lines 52–74): delete
the socket from the order's set and drop the map entry once empty (the
best-effort `ws.close()` at the end has no effect on the bookkeeping). -/
def WebSocketManager.removeConnection (m : WebSocketManager) (orderId : String)
    (ws : ℕ) : WebSocketManager :=
  match mapGet m.connections orderId with
  | none => m
  | some conns =>
    let conns' := conns.filter (fun w => w ≠ ws)
    if conns' = [] then
      { connections := m.connections.filter (fun p => p.1 ≠ orderId) }
    else
      { connections := m.connections.map
          (fun p => if p.1 = orderId then (p.1, conns') else p) }

/-- `addConnection` (lines 25–45): create the entry on first use, then
`Set.prototype.add` (no duplicates, insertion order). -/
def WebSocketManager.addConnection (m : WebSocketManager) (orderId : String)
    (ws : ℕ) : WebSocketManager :=
  match mapGet m.connections orderId with
  | none => { connections := m.connections ++ [(orderId, [ws])] }
  | some conns =>
    if ws ∈ conns then m
    else
      { connections := m.connections.map
          (fun p => if p.1 = orderId then (p.1, conns ++ [ws]) else p) }

/-- `emitStatusUpdate` (src/api/WebSocketManager.ts lines 82–134).
`openP ws` tells whether `ws.readyState === WebSocket.OPEN` at emission
time (a `send` that throws is modelled as not open, since both land in
`disconnectedSockets`).  Returns the sockets the message was sent to and
the state after pruning the disconnected sockets via `removeConnection`. -/
def WebSocketManager.emitStatusUpdate (m : WebSocketManager) (orderId : String)
    (openP : ℕ → Bool) : List ℕ × WebSocketManager :=
  match mapGet m.connections orderId with
  | none => ([], m)
  | some conns =>
    if conns = [] then ([], m)
    else
      let sent := conns.filter openP
      let disconnected := conns.filter (fun ws => !openP ws)
      (sent, disconnected.foldl (fun s ws => s.removeConnection orderId ws) m)

/-- `getTotalConnectionCount` (lines 175–181). -/
def WebSocketManager.getTotalConnectionCount (m : WebSocketManager) : ℕ :=
  (m.connections.map (fun p => p.2.length)).sum

/-- `closeAll` (lines 186–203): best-effort close of every socket, then
`connections.clear()`. -/
def WebSocketManager.closeAll (_m : WebSocketManager) : WebSocketManager :=
  { connections := [] }

/-! ## Theorems -/


/-- The `reduce` of `selectBestDex` returns the first quote attaining the
maximum effective price: the input splits as `l₁ ++ winner :: l₂` with
everything before the winner strictly cheaper and everything after it no
better. -/
theorem foldlBest_decomp (rest : List DexQuote) (q : DexQuote) :
    ∃ l₁ l₂, q :: rest = l₁ ++ (rest.foldl bestStep q) :: l₂ ∧
      (∀ p ∈ l₁, p.effectivePrice < (rest.foldl bestStep q).effectivePrice) ∧
      (∀ p ∈ l₂, p.effectivePrice ≤ (rest.foldl bestStep q).effectivePrice) := by
  induction rest generalizing q with
  | nil => exact ⟨[], [], rfl, by simp, by simp⟩
  | cons c rest ih =>
    have hfold : List.foldl bestStep q (c :: rest) =
        List.foldl bestStep (bestStep q c) rest := rfl
    rcases ih (bestStep q c) with ⟨l₁', l₂', heq, hlt, hle⟩
    by_cases h : q.effectivePrice < c.effectivePrice
    · have hstep : bestStep q c = c := by simp [bestStep, h]
      rw [hfold, hstep]
      rw [hstep] at heq hlt hle
      set b := List.foldl bestStep c rest with hb
      have hcmem : c ∈ l₁' ++ b :: l₂' := by
        rw [← heq]; exact List.mem_cons_self c rest
      have hcb : c.effectivePrice ≤ b.effectivePrice := by
        rcases List.mem_append.1 hcmem with hm | hm
        · exact le_of_lt (hlt c hm)
        · rcases List.mem_cons.1 hm with hm | hm
          · rw [hm]
          · exact hle c hm
      refine ⟨q :: l₁', l₂', ?_, ?_, hle⟩
      · rw [List.cons_append, ← heq]
      · intro p hp
        rcases List.mem_cons.1 hp with hp | hp
        · rw [hp]; exact lt_of_lt_of_le h hcb
        · exact hlt p hp
    · have hstep : bestStep q c = q := by simp [bestStep, h]
      rw [hfold, hstep]
      rw [hstep] at heq hlt hle
      have hcq : c.effectivePrice ≤ q.effectivePrice := not_lt.1 h
      set b := List.foldl bestStep q rest with hb
      match l₁', heq, hlt with
      | [], heq, hlt =>
        simp only [List.nil_append] at heq
        injection heq with hq hrest
        refine ⟨[], c :: rest, ?_, by simp, ?_⟩
        · rw [List.nil_append, ← hq]
        · intro p hp
          rcases List.mem_cons.1 hp with hp | hp
          · rw [hp, ← hq]; exact hcq
          · exact hle p (hrest ▸ hp)
      | x :: l₁'', heq, hlt =>
        simp only [List.cons_append] at heq
        injection heq with hq hrest
        have hqlt : q.effectivePrice < b.effectivePrice := by
          apply hlt
          rw [hq]
          exact List.mem_cons_self x l₁''
        refine ⟨q :: c :: l₁'', l₂', ?_, ?_, hle⟩
        · rw [hrest]; rfl
        · intro p hp
          rcases List.mem_cons.1 hp with hp | hp
          · rw [hp]; exact hqlt
          · rcases List.mem_cons.1 hp with hp | hp
            · rw [hp]; exact lt_of_le_of_lt hcq hqlt
            · refine hlt p ?_
              exact List.mem_cons_of_mem x hp

/-- C1: For every non-empty list of quotes, `selectBestDex` returns a
member quote whose `effectivePrice` equals the maximum effective price of
the list; ties are broken in favour of the earlier quote (every quote
strictly before the winner is strictly cheaper, so the winner is the first
quote attaining the maximum); for any two quotes with
`q2.effectivePrice < q1.effectivePrice` the selection from `[q1, q2]` and
from `[q2, q1]` is `q1`; and on the empty list the function fails. -/
theorem selectBestDex_picks_first_maximum :
    selectBestDex [] = none ∧
    (∀ quotes : List DexQuote, quotes ≠ [] →
      ∃ q l₁ l₂, selectBestDex quotes = some q ∧ q ∈ quotes ∧
        (∀ p ∈ quotes, p.effectivePrice ≤ q.effectivePrice) ∧
        quotes = l₁ ++ q :: l₂ ∧
        (∀ p ∈ l₁, p.effectivePrice < q.effectivePrice)) ∧
    (∀ q1 q2 : DexQuote, q2.effectivePrice < q1.effectivePrice →
      selectBestDex [q1, q2] = some q1 ∧ selectBestDex [q2, q1] = some q1) := by
  refine ⟨rfl, ?_, ?_⟩
  · intro quotes hne
    match quotes with
    | [] => exact absurd rfl hne
    | q :: rest =>
      rcases foldlBest_decomp rest q with ⟨l₁, l₂, heq, hlt, hle⟩
      set b := rest.foldl bestStep q with hb
      refine ⟨b, l₁, l₂, rfl, ?_, ?_, heq, hlt⟩
      · rw [heq]
        exact List.mem_append.2 (Or.inr (List.mem_cons_self b l₂))
      · intro p hp
        rw [heq] at hp
        rcases List.mem_append.1 hp with hm | hm
        · exact le_of_lt (hlt p hm)
        · rcases List.mem_cons.1 hm with hm | hm
          · rw [hm]
          · exact hle p hm
  · intro q1 q2 h
    constructor
    · show some (bestStep q1 q2) = some q1
      simp [bestStep, not_lt.2 (le_of_lt h)]
    · show some (bestStep q2 q1) = some q1
      simp [bestStep, h]

/-- A sample raydium quote (effective price 0.9975). -/
def sampleQuoteA : DexQuote :=
  { dex := .raydium, price := 1, fee := 1/400, effectivePrice := 399/400,
    poolId := none, estimatedOutput := 997500 }

/-- A sample meteora quote (effective price 1.00798). -/
def sampleQuoteB : DexQuote :=
  { dex := .meteora, price := 101/100, fee := 1/500,
    effectivePrice := 50399/50000, poolId := some "pool-b",
    estimatedOutput := 1010000 }

/-- Witness for `selectBestDex_picks_first_maximum` at the two sample
quotes: quote B strictly beats quote A, and it is selected from either
input ordering. -/
theorem selectBestDex_picks_first_maximum_witness :
    (∃ q l₁ l₂, selectBestDex [sampleQuoteA, sampleQuoteB] = some q ∧
      q ∈ [sampleQuoteA, sampleQuoteB] ∧
      (∀ p ∈ [sampleQuoteA, sampleQuoteB],
        p.effectivePrice ≤ q.effectivePrice) ∧
      [sampleQuoteA, sampleQuoteB] = l₁ ++ q :: l₂ ∧
      (∀ p ∈ l₁, p.effectivePrice < q.effectivePrice)) ∧
    selectBestDex [sampleQuoteB, sampleQuoteA] = some sampleQuoteB ∧
    selectBestDex [sampleQuoteA, sampleQuoteB] = some sampleQuoteB := by
  have h := selectBestDex_picks_first_maximum
  have hlt : sampleQuoteA.effectivePrice < sampleQuoteB.effectivePrice := by
    norm_num [sampleQuoteA, sampleQuoteB]
  exact ⟨h.2.1 [sampleQuoteA, sampleQuoteB] (by simp),
    (h.2.2 sampleQuoteB sampleQuoteA hlt).1,
    (h.2.2 sampleQuoteB sampleQuoteA hlt).2⟩

/-- C2: for any slippage `s` in `[0, maxSlippage]`, `executeSwap` passes
the venue adapter exactly the swap parameters whose `minAmountOut` is
`calculateMinAmountOut`, i.e. `⌊estimatedOutput * (1 - s)⌋`; and for any
non-negative estimated output `e` and any `s ∈ [0, maxSlippage]` the
floored value satisfies `floor(e * (1 - s)) ≤ e`. -/
theorem executeSwap_minAmountOut_floor :
    (∀ (this : OrderExecutor) (adapter : SwapParams → Except String SwapResult)
        (quote : DexQuote) (tokenIn tokenOut : String) (amount s : ℚ),
      0 ≤ s → s ≤ this.maxSlippage →
      (executeSwap this adapter quote tokenIn tokenOut amount (some s)).2 =
        [{ dex := quote.dex, tokenIn := tokenIn, tokenOut := tokenOut,
           amount := amount,
           minAmountOut := ⌊quote.estimatedOutput * (1 - s)⌋,
           poolId := quote.poolId }] ∧
      calculateMinAmountOut quote.estimatedOutput s =
        ⌊quote.estimatedOutput * (1 - s)⌋) ∧
    (∀ e s maxSlippage : ℚ, 0 ≤ s → s ≤ maxSlippage → 0 ≤ e →
      ((calculateMinAmountOut e s : ℚ) ≤ e)) := by
  constructor
  · intro this adapter quote tokenIn tokenOut amount s hs0 hsmax
    have hguard : ¬(s < 0 || this.maxSlippage < s) = true := by
      simp [not_lt.2 hs0, not_lt.2 hsmax]
    refine ⟨?_, rfl⟩
    rw [executeSwap]
    simp only [if_neg hguard]
    rcases hcall : adapter
        { dex := quote.dex, tokenIn := tokenIn, tokenOut := tokenOut,
          amount := amount,
          minAmountOut := calculateMinAmountOut quote.estimatedOutput s,
          poolId := quote.poolId } with msg | r
    · simp only [hcall]
      split <;> simp [calculateMinAmountOut]
    · simp [hcall, calculateMinAmountOut]
  · intro e s _max hs0 _hsmax he
    have hfloor : ((calculateMinAmountOut e s : ℚ)) ≤ e * (1 - s) :=
      Int.floor_le (e * (1 - s))
    have hmul : e * (1 - s) ≤ e := by nlinarith [mul_nonneg he hs0]
    exact le_trans hfloor hmul

/-- Witness for `executeSwap_minAmountOut_floor` at slippage 0.01 against
sample quote B with a failing adapter: the recorded swap parameters floor
`1010000 * 0.99 = 999900`, which does not exceed the estimated output. -/
theorem executeSwap_minAmountOut_floor_witness :
    (executeSwap (mkOrderExecutor { defaultSlippage := none, maxSlippage := none })
        (fun _ => .error "network unreachable") sampleQuoteB "tokA" "tokB"
        1000000 (some (1/100))).2 =
      [{ dex := sampleQuoteB.dex, tokenIn := "tokA", tokenOut := "tokB",
         amount := 1000000,
         minAmountOut := ⌊sampleQuoteB.estimatedOutput * (1 - 1/100)⌋,
         poolId := sampleQuoteB.poolId }] ∧
    ((calculateMinAmountOut sampleQuoteB.estimatedOutput (1/100) : ℚ) ≤
      sampleQuoteB.estimatedOutput) := by
  have h := executeSwap_minAmountOut_floor
  refine ⟨(h.1 (mkOrderExecutor { defaultSlippage := none, maxSlippage := none })
      (fun _ => .error "network unreachable") sampleQuoteB "tokA" "tokB"
      1000000 (1/100) (by norm_num) ?_).1,
    h.2 sampleQuoteB.estimatedOutput (1/100) (1/10) (by norm_num) (by norm_num)
      (by norm_num [sampleQuoteB])⟩
  show (1/100 : ℚ) ≤ (mkOrderExecutor { defaultSlippage := none, maxSlippage := none }).maxSlippage
  norm_num [mkOrderExecutor, jsNumOr]

/-- A needle matches at the head of any extension of itself. -/
theorem matchesAt_append (n t : List Char) : matchesAt n (n ++ t) = true := by
  induction n with
  | nil => rfl
  | cons c cs ih => simp [matchesAt, ih]

/-- A match at the head gives a substring occurrence. -/
theorem hasSub_of_matchesAt (n h : List Char) (hm : matchesAt n h = true) :
    hasSub n h = true := by
  cases h with
  | nil => exact hm
  | cons d ds => simp [hasSub, hm]

/-- Every out-of-range slippage message contains `"slippage"` after
lower-casing, whatever the interpolated numbers render to; this is the
substring that `classifyError`'s EXECUTION bucket tests for. -/
theorem slippageRangeMessage_contains_slippage (s maxS : ℚ) :
    strIncludes "slippage" (lowerCase (slippageRangeMessage s maxS)) = true := by
  have key : ∀ t : String,
      hasSub "slippage".toList (("Slippage " ++ t).data.map Char.toLower) = true := by
    intro t
    have hform : (("Slippage " ++ t).data.map Char.toLower) =
        "slippage".toList ++ (' ' :: t.data.map Char.toLower) := by
      rw [String.data_append, List.map_append]
      have h9 : ("Slippage ".data.map Char.toLower) =
          "slippage".toList ++ [' '] := by decide
      rw [h9, List.append_assoc]
      rfl
    rw [hform]
    exact hasSub_of_matchesAt _ _ (matchesAt_append _ _)
  have hassoc : slippageRangeMessage s maxS =
      "Slippage " ++ (toString s ++ (" is outside acceptable range [0, " ++
        (toString maxS ++ "]"))) := by
    rw [slippageRangeMessage]
    simp [String.append_assoc]
  show hasSub "slippage".toList
    ((slippageRangeMessage s maxS).data.map Char.toLower) = true
  rw [hassoc]
  exact key _

/-- A concrete executor configuration: defaultSlippage 0.01,
maxSlippage 0.1 (the configured values of the integration tests). -/
def sampleExecutor : OrderExecutor :=
  mkOrderExecutor
    { defaultSlippage := some (mkRat 1 100), maxSlippage := some (mkRat 1 10) }

/-- C3 counterexample: with maxSlippage 0.1, calling `executeSwap` at the
explicit slippage 0.15 does reject without invoking the venue adapter, but
the rejected error is a plain `Error` whose message-substring
classification is EXECUTION (the message contains "slippage"), not the
VALIDATION kind the claim asserts. -/
theorem executeSwap_out_of_range_classifies_EXECUTION :
    executeSwap sampleExecutor (fun _ => .error "network unreachable")
      sampleQuoteB "tokA" "tokB" 1000000 (some (mkRat 3 20)) =
      (.error (slippageRangeMessage (mkRat 3 20) (mkRat 1 10)), []) ∧
    classifyError (.plain "Error" (slippageRangeMessage (mkRat 3 20) (mkRat 1 10))) =
      ExecutionError (slippageRangeMessage (mkRat 3 20) (mkRat 1 10)) ∧
    (ExecutionError (slippageRangeMessage (mkRat 3 20) (mkRat 1 10))).category ≠
      ErrorCategory.VALIDATION := by
  refine ⟨?_, by decide, by decide⟩
  rw [executeSwap]
  have hguard : ((mkRat 3 20 : ℚ) < 0 ||
      sampleExecutor.maxSlippage < mkRat 3 20) = true := by decide
  rw [if_pos hguard]
  have hmax : sampleExecutor.maxSlippage = mkRat 1 10 := by decide
  rw [hmax]

/-- C3 (amended): `executeSwap`, when called with a slippage outside
`[0, maxSlippage]` (after substituting the configured default for an
absent slippage — conjunct 2), rejects before invoking any venue adapter
(the adapter trace is empty and the result does not depend on the
adapter), but with a plain `Error` whose lower-cased message contains
"slippage", so the message-substring classifier assigns it kind
EXECUTION (retryable), not VALIDATION. -/
theorem executeSwap_out_of_range_rejects_before_adapter :
    (∀ (this : OrderExecutor) (adapter : SwapParams → Except String SwapResult)
        (quote : DexQuote) (tokenIn tokenOut : String) (amount s : ℚ),
      s < 0 ∨ this.maxSlippage < s →
      executeSwap this adapter quote tokenIn tokenOut amount (some s) =
        (.error (slippageRangeMessage s this.maxSlippage), [])) ∧
    (∀ (this : OrderExecutor) (adapter : SwapParams → Except String SwapResult)
        (quote : DexQuote) (tokenIn tokenOut : String) (amount : ℚ),
      executeSwap this adapter quote tokenIn tokenOut amount none =
        executeSwap this adapter quote tokenIn tokenOut amount
          (some this.defaultSlippage)) ∧
    (∀ s maxS : ℚ,
      strIncludes "slippage" (lowerCase (slippageRangeMessage s maxS)) = true) ∧
    classifyError (.plain "Error" (slippageRangeMessage (mkRat 3 20) (mkRat 1 10))) =
      ExecutionError (slippageRangeMessage (mkRat 3 20) (mkRat 1 10)) := by
  refine ⟨?_, ?_, slippageRangeMessage_contains_slippage, by decide⟩
  · intro this adapter quote tokenIn tokenOut amount s hs
    have hguard : (s < 0 || this.maxSlippage < s) = true := by
      rcases hs with hs | hs <;> simp [hs]
    rw [executeSwap, if_pos hguard]
  · intro this adapter quote tokenIn tokenOut amount
    rfl

/-- Witness for `executeSwap_out_of_range_rejects_before_adapter`: the
rejection conjunct applied at slippage 0.15 against maxSlippage 0.1. -/
theorem executeSwap_out_of_range_rejects_before_adapter_witness :
    executeSwap sampleExecutor (fun _ => .error "network unreachable")
      sampleQuoteA "tokA" "tokB" 1000000 (some (mkRat 3 20)) =
      (.error (slippageRangeMessage (mkRat 3 20) sampleExecutor.maxSlippage), []) := by
  exact executeSwap_out_of_range_rejects_before_adapter.1 sampleExecutor
    (fun _ => .error "network unreachable") sampleQuoteA "tokA" "tokB" 1000000
    (mkRat 3 20) (Or.inr (by decide))

/-- C4: `getQuotes` fails exactly when both venue calls fail or time out
(conjunct 1, with the thrown message classified as ROUTING by the
message-substring classifier in conjunct 3, since it contains "quote");
on success it returns exactly the quotes of the venues whose call
succeeded, in venue order, dropping the failed ones (conjunct 2). -/
theorem getQuotes_drops_failures_routing_error :
    (∀ raydiumResult meteoraResult : Option DexQuote,
      (∃ msg, getQuotes raydiumResult meteoraResult = .error msg) ↔
        raydiumResult = none ∧ meteoraResult = none) ∧
    (∀ (raydiumResult meteoraResult : Option DexQuote) (qs : List DexQuote),
      getQuotes raydiumResult meteoraResult = .ok qs →
        qs = [raydiumResult, meteoraResult].filterMap id) ∧
    (classifyError (.plain "Error" "Failed to get quotes from any DEX")).category =
      ErrorCategory.ROUTING ∧
    (classifyError (.plain "Error" "Failed to get quotes from any DEX")).isRetryable =
      true := by
  refine ⟨?_, ?_, by decide, by decide⟩
  · intro r m
    cases r <;> cases m <;> simp [getQuotes]
  · intro r m qs h
    cases r <;> cases m <;> simp [getQuotes] at h <;> simp [h]

/-- Witness for `getQuotes_drops_failures_routing_error`: with raydium
failing and meteora succeeding, exactly the meteora quote is returned;
with both failing, the ROUTING-classified error is thrown. -/
theorem getQuotes_drops_failures_routing_error_witness :
    ((∃ msg, getQuotes none none = .error msg) ∧
      [sampleQuoteB] = [none, some sampleQuoteB].filterMap id) := by
  have h := getQuotes_drops_failures_routing_error
  refine ⟨(h.1 none none).2 ⟨rfl, rfl⟩, ?_⟩
  exact h.2.1 none (some sampleQuoteB) [sampleQuoteB] rfl

/-- The retry loop makes at most `maxAttempts - attempt + 1` invocations. -/
theorem runRetry_count_le {T : Type} (fn : ℕ → Except JsError T)
    (s : JsError → Bool) (m a : ℕ) :
    (runRetry fn s m a).2 ≤ m + 1 - a := by
  induction a using runRetry.induct fn s m with
  | case1 x hx v hfn => rw [runRetry]; simp [hx, hfn]; omega
  | case2 x hx e hfn hstop =>
    rw [runRetry]; simp only [hx, if_true, hfn, hstop, if_true]; omega
  | case3 x hx e hfn hstop ih =>
    rw [runRetry]
    simp only [hx, if_true, hfn, if_neg hstop]
    have hlt : ¬ m ≤ x := by
      intro hc
      apply hstop
      simp [hc]
    omega
  | case4 x hx => rw [runRetry]; simp [hx]

/-- A first-attempt error refused by `shouldRetry` ends the loop with a
single invocation, rethrowing that error. -/
theorem runRetry_stops_on_nonretryable {T : Type} (fn : ℕ → Except JsError T)
    (s : JsError → Bool) (m a : ℕ) (e : JsError) (ha : a ≤ m)
    (hfn : fn a = .error e) (hs : s e = false) :
    runRetry fn s m a = (.error (some e), 1) := by
  have hstop : (m ≤ a || !s e) = true := by simp [hs]
  rw [runRetry, if_pos ha, hfn]
  exact if_pos hstop

/-- When the retry loop ends in a thrown error, that error came from the
last invocation made. -/
theorem runRetry_last_error {T : Type} (fn : ℕ → Except JsError T)
    (s : JsError → Bool) (m : ℕ) : ∀ (a : ℕ) (e : JsError) (n : ℕ),
    runRetry fn s m a = (.error (some e), n) → fn (a + n - 1) = .error e := by
  intro a
  induction a using runRetry.induct fn s m with
  | case1 x hx v hfn =>
    intro e n h
    rw [runRetry, if_pos hx, hfn] at h
    exact absurd (congrArg (fun p : Except (Option JsError) T × ℕ => p.1) h)
      (by simp)
  | case2 x hx e' hfn hstop =>
    intro e n h
    rw [runRetry, if_pos hx, hfn] at h
    simp only [hstop, if_true] at h
    obtain ⟨h1, h2⟩ := Prod.mk.injEq _ _ _ _ ▸ h
    injection h1 with h1'
    injection h1' with h1''
    rw [← h2, ← h1'']
    simpa using hfn
  | case3 x hx e' hfn hstop ih =>
    intro e n h
    have hstop' : (decide (m ≤ x) || !s e') = false := by
      revert hstop
      cases (decide (m ≤ x) || !s e') <;> simp
    rw [runRetry, if_pos hx, hfn] at h
    simp only [hstop', Bool.false_eq_true, if_false] at h
    obtain ⟨h1, h2⟩ := Prod.mk.injEq _ _ _ _ ▸ h
    have hpair : runRetry fn s m (x + 1) =
        (.error (some e), (runRetry fn s m (x + 1)).2) := Prod.ext h1 rfl
    have hih := ih e (runRetry fn s m (x + 1)).2 hpair
    have harith : x + 1 + (runRetry fn s m (x + 1)).2 - 1 = x + n - 1 := by omega
    rw [← harith]
    exact hih
  | case4 x hx =>
    intro e n h
    rw [runRetry, if_neg hx] at h
    exact absurd (congrArg (fun p : Except (Option JsError) T × ℕ => p.1) h)
      (by simp)

/-- When the retry loop invokes the function a second time, the first
invocation threw an error that `shouldRetry` accepted. -/
theorem runRetry_retried {T : Type} (fn : ℕ → Except JsError T)
    (s : JsError → Bool) (m a : ℕ) :
    2 ≤ (runRetry fn s m a).2 → ∃ e, fn a = .error e ∧ s e = true := by
  intro h2
  by_cases ha : a ≤ m
  · rcases hfn : fn a with e | v
    · by_cases hs : s e = true
      · exact ⟨e, rfl, hs⟩
      · have hs' : s e = false := by revert hs; cases s e <;> simp
        rw [runRetry_stops_on_nonretryable fn s m a e ha hfn hs'] at h2
        simp at h2
    · rw [runRetry, if_pos ha, hfn] at h2
      simp at h2
  · rw [runRetry, if_neg ha] at h2
    simp at h2

/-- C5: with default options `withRetry` (1) invokes the function exactly
once and rethrows when the first attempt throws a `ValidationError`
(VALIDATION kind, non-retryable); (2) invokes the function at most
`maxAttempts` times, with the default `maxAttempts` being 3; (3)
re-invokes only when the thrown error is a categorized error whose
retryable flag is set, which for errors built by the four error classes
means exactly kinds ROUTING, EXECUTION, or SYSTEM-with-retryable-set (4);
and (5) after the last failing attempt, the error of that last attempt is
what is rethrown. -/
theorem withRetry_default_retry_policy :
    (∀ (T : Type) (fn : ℕ → Except JsError T) (m : String),
      fn 1 = .error (.categorized (ValidationError m)) →
      withRetryDefault fn =
        (.error (some (.categorized (ValidationError m))), 1)) ∧
    (∀ (T : Type) (fn : ℕ → Except JsError T),
      (withRetryDefault fn).2 ≤ DEFAULT_RETRY_CONFIG.maxAttempts) ∧
    DEFAULT_RETRY_CONFIG.maxAttempts = 3 ∧
    (∀ (T : Type) (fn : ℕ → Except JsError T),
      2 ≤ (withRetryDefault fn).2 →
      ∃ c, fn 1 = .error (.categorized c) ∧ c.isRetryable = true) ∧
    (∀ c : CategorizedError,
      ((∃ m, c = ValidationError m) ∨ (∃ m, c = RoutingError m) ∨
        (∃ m, c = ExecutionError m) ∨ (∃ m r, c = SystemError m r)) →
      (defaultShouldRetry (.categorized c) = true ↔
        (c.isRetryable = true ∧
          (c.category = .ROUTING ∨ c.category = .EXECUTION ∨
            c.category = .SYSTEM)))) ∧
    (∀ (T : Type) (fn : ℕ → Except JsError T) (e : JsError) (n : ℕ),
      withRetryDefault fn = (.error (some e), n) → fn n = .error e) := by
  refine ⟨?_, ?_, rfl, ?_, ?_, ?_⟩
  · intro T fn m hfn
    exact runRetry_stops_on_nonretryable fn defaultShouldRetry 3 1 _
      (by omega) hfn rfl
  · intro T fn
    have h := runRetry_count_le fn defaultShouldRetry 3 1
    simpa using h
  · intro T fn h2
    rcases runRetry_retried fn defaultShouldRetry 3 1 h2 with ⟨e, hfn, hs⟩
    match e, hs with
    | .categorized c, hs => exact ⟨c, hfn, hs⟩
  · rintro c (⟨m, rfl⟩ | ⟨m, rfl⟩ | ⟨m, rfl⟩ | ⟨m, r, rfl⟩) <;>
      simp [defaultShouldRetry, ValidationError, RoutingError, ExecutionError,
        SystemError]
  · intro T fn e n h
    have := runRetry_last_error fn defaultShouldRetry 3 1 e n h
    simpa using this

/-- Witness for `withRetry_default_retry_policy`: a function that always
throws a `ValidationError` is invoked exactly once and its error is
rethrown. -/
theorem withRetry_default_retry_policy_witness :
    withRetryDefault
        (fun _ => .error (.categorized (ValidationError "invalid amount")) :
          ℕ → Except JsError ℕ) =
      (.error (some (.categorized (ValidationError "invalid amount"))), 1) :=
  withRetry_default_retry_policy.1 ℕ
    (fun _ => .error (.categorized (ValidationError "invalid amount")))
    "invalid amount" rfl

/-- One `execute` step never changes the breaker's name or config. -/
theorem CircuitBreaker.execute_preserves_static (cb : CircuitBreaker)
    (now : ℤ) (b : Bool) :
    (cb.execute now b).2.name = cb.name ∧
    (cb.execute now b).2.config = cb.config := by
  unfold CircuitBreaker.execute CircuitBreaker.onSuccess
    CircuitBreaker.onFailure CircuitBreaker.openCircuit
    CircuitBreaker.resetCircuit
  split_ifs <;> cases b <;> simp_all <;> split_ifs <;> simp_all

/-- `failMany` never changes the breaker's name or config. -/
theorem CircuitBreaker.failMany_preserves_static :
    ∀ (times : List ℤ) (cb : CircuitBreaker),
    (cb.failMany times).name = cb.name ∧
    (cb.failMany times).config = cb.config := by
  intro times
  induction times with
  | nil => intro cb; exact ⟨rfl, rfl⟩
  | cons t rest ih =>
    intro cb
    have hstep := cb.execute_preserves_static t false
    have hrest := ih (cb.execute t false).2
    exact ⟨hrest.1.trans hstep.1, hrest.2.trans hstep.2⟩

/-- A failing `execute` on a non-OPEN breaker invokes the function and
applies `onFailure`. -/
theorem CircuitBreaker.execute_fail_not_open (cb : CircuitBreaker) (now : ℤ)
    (h : cb.state ≠ .OPEN) :
    cb.execute now false = (.invoked false, cb.onFailure now) := by
  rw [CircuitBreaker.execute]
  simp [h]

/-- `onFailure` below the threshold from CLOSED: record the failure and
stay CLOSED. -/
theorem CircuitBreaker.onFailure_below_threshold (cb : CircuitBreaker)
    (now : ℤ) (hclosed : cb.state = .CLOSED)
    (hlt : cb.failureCount + 1 < cb.config.failureThreshold) :
    cb.onFailure now =
      { cb with lastFailureTime := now, failureCount := cb.failureCount + 1 } := by
  rw [CircuitBreaker.onFailure]
  simp [hclosed, Nat.not_le.2 hlt]

/-- `onFailure` reaching the threshold from CLOSED: open the circuit with
`nextAttemptTime = now + resetTimeout`. -/
theorem CircuitBreaker.onFailure_reaches_threshold (cb : CircuitBreaker)
    (now : ℤ) (hclosed : cb.state = .CLOSED)
    (hth : cb.config.failureThreshold ≤ cb.failureCount + 1) :
    cb.onFailure now =
      { cb with
        state := .OPEN, lastFailureTime := now,
        failureCount := cb.failureCount + 1,
        nextAttemptTime := now + cb.config.resetTimeout } := by
  rw [CircuitBreaker.onFailure]
  simp [hclosed, hth, CircuitBreaker.openCircuit]

/-- While OPEN and before `nextAttemptTime`, `execute` fails fast with the
non-retryable `SystemError` and does not invoke the underlying function or
change the breaker state. -/
theorem CircuitBreaker.execute_open_fail_fast (cb : CircuitBreaker) (now : ℤ)
    (b : Bool) (hopen : cb.state = .OPEN) (hlt : now < cb.nextAttemptTime) :
    cb.execute now b =
      (.fastFail (SystemError (circuitOpenMessage cb.name) false), cb) := by
  rw [CircuitBreaker.execute]
  simp [hopen, Int.not_le.2 hlt]

/-- Starting CLOSED, a run of failing executions whose length tops up the
failure count to the threshold leaves the breaker OPEN with
`nextAttemptTime` = time of the last failure + `resetTimeout`. -/
theorem CircuitBreaker.failMany_opens :
    ∀ (times : List ℤ) (cb : CircuitBreaker),
    cb.state = .CLOSED →
    times ≠ [] →
    cb.failureCount + times.length = cb.config.failureThreshold →
    (cb.failMany times).state = .OPEN ∧
    (cb.failMany times).nextAttemptTime =
      times.getLast?.getD 0 + cb.config.resetTimeout := by
  intro times
  induction times with
  | nil => intro cb _ hne _; exact absurd rfl hne
  | cons t rest ih =>
    intro cb hclosed _ hcount
    have hnotopen : cb.state ≠ .OPEN := by rw [hclosed]; intro h; cases h
    have hchain : cb.failMany (t :: rest) =
        ((cb.execute t false).2).failMany rest := rfl
    cases rest with
    | nil =>
      have hth : cb.config.failureThreshold ≤ cb.failureCount + 1 := by
        simp at hcount
        omega
      rw [hchain, cb.execute_fail_not_open t hnotopen]
      rw [cb.onFailure_reaches_threshold t hclosed hth]
      exact ⟨rfl, rfl⟩
    | cons t2 rest2 =>
      have hlt : cb.failureCount + 1 < cb.config.failureThreshold := by
        simp at hcount
        omega
      rw [hchain, cb.execute_fail_not_open t hnotopen]
      rw [cb.onFailure_below_threshold t hclosed (by omega)]
      have hih := ih
        { cb with
          lastFailureTime := t, failureCount := cb.failureCount + 1 }
      rw [List.getLast?_cons_cons]
      exact hih hclosed (by simp) (by simp at hcount ⊢; omega)

/-- C6: starting from a fresh breaker, `failureThreshold` consecutive
failing executions (at ordered times within the monitoring period) leave
the breaker OPEN with `nextAttemptTime` = last failure + `resetTimeout`;
while OPEN, every call before `nextAttemptTime` fails fast — the
underlying function is not invoked and the state is unchanged — with a
`SystemError` of kind SYSTEM whose retryable flag is false. -/
theorem circuitBreaker_opens_then_fails_fast :
    (∀ (name : String) (config : CircuitBreakerConfig) (times : List ℤ),
      times ≠ [] →
      times.length = config.failureThreshold →
      times.Chain' (fun a b => a ≤ b ∧ b - a ≤ config.monitoringPeriod) →
      ((mkCircuitBreaker name config).failMany times).state = .OPEN ∧
      ((mkCircuitBreaker name config).failMany times).nextAttemptTime =
        times.getLast?.getD 0 + config.resetTimeout ∧
      (∀ (now : ℤ) (b : Bool),
        now < ((mkCircuitBreaker name config).failMany times).nextAttemptTime →
        ((mkCircuitBreaker name config).failMany times).execute now b =
          (.fastFail (SystemError (circuitOpenMessage name) false),
            (mkCircuitBreaker name config).failMany times))) ∧
    (∀ (cb : CircuitBreaker) (now : ℤ) (b : Bool),
      cb.state = .OPEN → now < cb.nextAttemptTime →
      cb.execute now b =
        (.fastFail (SystemError (circuitOpenMessage cb.name) false), cb)) ∧
    (∀ m : String,
      (SystemError m false).category = ErrorCategory.SYSTEM ∧
      (SystemError m false).isRetryable = false) := by
  refine ⟨?_, CircuitBreaker.execute_open_fail_fast, fun m => ⟨rfl, rfl⟩⟩
  intro name config times hne hlen _hchain
  have hcount : (mkCircuitBreaker name config).failureCount + times.length =
      (mkCircuitBreaker name config).config.failureThreshold := by
    simpa [mkCircuitBreaker] using hlen
  have h1 := CircuitBreaker.failMany_opens times (mkCircuitBreaker name config)
    rfl hne hcount
  have hreset : (mkCircuitBreaker name config).config.resetTimeout =
      config.resetTimeout := rfl
  refine ⟨h1.1, hreset ▸ h1.2, ?_⟩
  intro now b hlt
  have hname : ((mkCircuitBreaker name config).failMany times).name = name :=
    (CircuitBreaker.failMany_preserves_static times (mkCircuitBreaker name config)).1
  have := CircuitBreaker.execute_open_fail_fast
    ((mkCircuitBreaker name config).failMany times) now b h1.1 hlt
  rw [hname] at this
  exact this

/-- Witness for `circuitBreaker_opens_then_fails_fast`: threshold 3,
failures at times 0, 1, 2; the breaker is OPEN afterwards and a call at
time 100 < 2 + 5000 fails fast with the non-retryable SYSTEM error. -/
theorem circuitBreaker_opens_then_fails_fast_witness :
    ((mkCircuitBreaker "test-service" ⟨3, 5000, 10000⟩).failMany
      [0, 1, 2]).state = .OPEN ∧
    ((mkCircuitBreaker "test-service" ⟨3, 5000, 10000⟩).failMany
      [0, 1, 2]).execute 100 true =
      (.fastFail (SystemError (circuitOpenMessage "test-service") false),
        (mkCircuitBreaker "test-service" ⟨3, 5000, 10000⟩).failMany [0, 1, 2]) := by
  have h := circuitBreaker_opens_then_fails_fast
  have h1 := h.1 "test-service" ⟨3, 5000, 10000⟩ [0, 1, 2] (by simp) rfl
    (by norm_num [List.chain'_cons, List.chain'_singleton])
  refine ⟨h1.1, h1.2.2 100 true ?_⟩
  rw [h1.2.1]
  decide

/-- C7 counterexample: the message "dex is down" contains none of the
substrings the claim enumerates (validation/invalid/required, quote/
routing, transaction/swap/slippage), so by the claim it would classify as
SYSTEM; but `classifyError`'s ROUTING bucket also tests for "dex", and
the classification is ROUTING. -/
theorem classifyError_dex_bucket_counterexample :
    (classifyError (.plain "Error" "dex is down")).category =
      ErrorCategory.ROUTING ∧
    strIncludes "validation" (lowerCase "dex is down") = false ∧
    strIncludes "invalid" (lowerCase "dex is down") = false ∧
    strIncludes "required" (lowerCase "dex is down") = false ∧
    strIncludes "quote" (lowerCase "dex is down") = false ∧
    strIncludes "routing" (lowerCase "dex is down") = false ∧
    strIncludes "transaction" (lowerCase "dex is down") = false ∧
    strIncludes "swap" (lowerCase "dex is down") = false ∧
    strIncludes "slippage" (lowerCase "dex is down") = false ∧
    ErrorCategory.ROUTING ≠ ErrorCategory.SYSTEM := by
  decide

/-- Modelled from the claim's wording as amended: classify by lower-cased
message substring, in bucket order validation/invalid/required →
VALIDATION, quote/dex/routing → ROUTING, transaction/swap/slippage →
EXECUTION, otherwise SYSTEM (retryable). -/
def claimClassification (msg : String) : CategorizedError :=
  let low := lowerCase msg
  if strIncludes "validation" low || strIncludes "invalid" low ||
      strIncludes "required" low then
    ValidationError msg
  else if strIncludes "quote" low || strIncludes "dex" low ||
      strIncludes "routing" low then
    RoutingError msg
  else if strIncludes "transaction" low || strIncludes "swap" low ||
      strIncludes "slippage" low then
    ExecutionError msg
  else
    SystemError msg true

/-- C7 (amended): `classifyError` maps an already-categorized error to
itself; otherwise it classifies by lower-cased message substring:
validation/invalid/required → VALIDATION, quote/**dex**/routing →
ROUTING, transaction/swap/slippage → EXECUTION, every other message →
SYSTEM; and the four produced kinds carry the categories VALIDATION,
ROUTING, EXECUTION, SYSTEM respectively. -/
theorem classifyError_matches_bucket_description :
    (∀ c : CategorizedError, classifyError (.categorized c) = c) ∧
    (∀ name msg : String,
      classifyError (.plain name msg) = claimClassification msg) ∧
    (∀ m, (ValidationError m).category = ErrorCategory.VALIDATION) ∧
    (∀ m, (RoutingError m).category = ErrorCategory.ROUTING) ∧
    (∀ m, (ExecutionError m).category = ErrorCategory.EXECUTION) ∧
    (∀ m r, (SystemError m r).category = ErrorCategory.SYSTEM) :=
  ⟨fun _ => rfl, fun _ _ => rfl, fun _ => rfl, fun _ => rfl, fun _ => rfl,
    fun _ _ => rfl⟩

/-- C8: whenever `validateOrder` rejects a submission (returning a rule's
message), the endpoint sends the error frame
`{code := "VALIDATION_ERROR", message := rule message}` and closes the
stream, and neither creates an order record nor enqueues a job nor emits
any status (conjunct 1); in particular a submission with
`tokenIn = tokenOut` (that passes the earlier rules) fails with the
distinct message "tokenIn and tokenOut must be different" (conjunct 2). -/
theorem handleOrderSubmission_rejects_before_side_effects :
    (∀ (config : ServerConfig) (req : OrderRequest) (msg : String),
      validateOrder req = some msg →
      handleOrderSubmission config req =
        ⟨some ⟨"VALIDATION_ERROR", msg⟩, true, false, false, false, false⟩) ∧
    (∀ req : OrderRequest, req.tokenIn = req.tokenOut →
      0 < req.amount → (jsTrim req.tokenIn).length ≠ 0 →
      validateOrder req = some "tokenIn and tokenOut must be different") := by
  constructor
  · intro config req msg hv
    rw [handleOrderSubmission, hv]
  · intro req heq hamount htrim
    rw [validateOrder]
    rw [if_neg (not_le.2 hamount), if_neg htrim, if_neg (heq ▸ htrim),
      if_pos heq]

/-- Witness for `handleOrderSubmission_rejects_before_side_effects`: the
submission `{tokenIn: "SOL", tokenOut: "SOL", amount: 100}` is rejected
with the equal-tokens message, the stream is closed, and no order or job
side effect is recorded. -/
theorem handleOrderSubmission_rejects_before_side_effects_witness :
    validateOrder ⟨"SOL", "SOL", 100, none⟩ =
      some "tokenIn and tokenOut must be different" ∧
    handleOrderSubmission ⟨mkRat 1 100, mkRat 1 10⟩ ⟨"SOL", "SOL", 100, none⟩ =
      ⟨some ⟨"VALIDATION_ERROR", "tokenIn and tokenOut must be different"⟩,
        true, false, false, false, false⟩ := by
  have h := handleOrderSubmission_rejects_before_side_effects
  have hv := h.2 ⟨"SOL", "SOL", 100, none⟩ rfl (by norm_num) (by decide)
  exact ⟨hv, h.1 ⟨mkRat 1 100, mkRat 1 10⟩ ⟨"SOL", "SOL", 100, none⟩ _ hv⟩

/-- Deleting a key from the connection map makes lookups of it fail. -/
theorem mapGet_filter_self (l : List (String × List ℕ)) (k : String) :
    mapGet (l.filter (fun p => p.1 ≠ k)) k = none := by
  induction l with
  | nil => rfl
  | cons p rest ih =>
    obtain ⟨pk, pv⟩ := p
    rw [List.filter_cons]
    by_cases hp : pk = k
    · rw [if_neg (by simp [hp])]
      exact ih
    · rw [if_pos (by simp [hp])]
      rw [mapGet, if_neg hp]
      exact ih

/-- Deleting one key leaves lookups of other keys unchanged. -/
theorem mapGet_filter_other (l : List (String × List ℕ)) (k o : String)
    (h : o ≠ k) :
    mapGet (l.filter (fun p => p.1 ≠ k)) o = mapGet l o := by
  induction l with
  | nil => rfl
  | cons p rest ih =>
    obtain ⟨pk, pv⟩ := p
    rw [List.filter_cons]
    by_cases hp : pk = k
    · rw [if_neg (by simp [hp])]
      rw [ih, mapGet]
      rw [if_neg (fun hc : pk = o => h (by rw [← hc, hp]))]
    · rw [if_pos (by simp [hp])]
      rw [mapGet, mapGet]
      by_cases hpo : pk = o
      · rw [if_pos hpo, if_pos hpo]
      · rw [if_neg hpo, if_neg hpo]
        exact ih

/-- Updating the value at one key makes lookups of it return the new
value, provided the key was present. -/
theorem mapGet_update_self (l : List (String × List ℕ)) (k : String)
    (v w : List ℕ) (hw : mapGet l k = some w) :
    mapGet (l.map (fun p => if p.1 = k then (p.1, v) else p)) k = some v := by
  induction l with
  | nil => cases hw
  | cons p rest ih =>
    obtain ⟨pk, pv⟩ := p
    rw [List.map_cons]
    by_cases hp : pk = k
    · show mapGet ((if pk = k then (pk, v) else (pk, pv)) :: _) k = some v
      rw [if_pos hp, mapGet, if_pos hp]
    · show mapGet ((if pk = k then (pk, v) else (pk, pv)) :: _) k = some v
      rw [if_neg hp, mapGet, if_neg hp]
      rw [mapGet, if_neg hp] at hw
      exact ih hw

/-- Updating the value at one key leaves lookups of other keys
unchanged. -/
theorem mapGet_update_other (l : List (String × List ℕ)) (k o : String)
    (v : List ℕ) (h : o ≠ k) :
    mapGet (l.map (fun p => if p.1 = k then (p.1, v) else p)) o =
      mapGet l o := by
  induction l with
  | nil => rfl
  | cons p rest ih =>
    obtain ⟨pk, pv⟩ := p
    rw [List.map_cons]
    show mapGet ((if pk = k then (pk, v) else (pk, pv)) :: _) o =
      mapGet ((pk, pv) :: rest) o
    by_cases hp : pk = k
    · rw [if_pos hp, mapGet, mapGet]
      by_cases hpo : pk = o
      · exact absurd (by rw [← hpo, hp]) h
      · rw [if_neg hpo, if_neg hpo]
        exact ih
    · rw [if_neg hp, mapGet, mapGet]
      by_cases hpo : pk = o
      · rw [if_pos hpo, if_pos hpo]
      · rw [if_neg hpo, if_neg hpo]
        exact ih

/-- `removeConnection` on an untracked order id is a no-op. -/
theorem WebSocketManager.removeConnection_eq_none (m : WebSocketManager)
    (o : String) (ws : ℕ) (hm : mapGet m.connections o = none) :
    m.removeConnection o ws = m := by
  rw [WebSocketManager.removeConnection, hm]

/-- `removeConnection` on a tracked order id: drop the socket, and drop
the whole entry when it empties. -/
theorem WebSocketManager.removeConnection_eq_some (m : WebSocketManager)
    (o : String) (ws : ℕ) (conns : List ℕ)
    (hm : mapGet m.connections o = some conns) :
    m.removeConnection o ws =
      (if conns.filter (fun w => w ≠ ws) = [] then
        ({ connections := m.connections.filter (fun p => p.1 ≠ o) } :
          WebSocketManager)
      else
        { connections := m.connections.map
            (fun p => if p.1 = o then (p.1, conns.filter (fun w => w ≠ ws))
              else p) }) := by
  rw [WebSocketManager.removeConnection, hm]

/-- `emitStatusUpdate` on an untracked order id sends nothing. -/
theorem WebSocketManager.emitStatusUpdate_eq_none (m : WebSocketManager)
    (o : String) (openP : ℕ → Bool) (hm : mapGet m.connections o = none) :
    m.emitStatusUpdate o openP = ([], m) := by
  rw [WebSocketManager.emitStatusUpdate, hm]

/-- `emitStatusUpdate` on a tracked order id: send to the open sockets
and prune the rest. -/
theorem WebSocketManager.emitStatusUpdate_eq_some (m : WebSocketManager)
    (o : String) (openP : ℕ → Bool) (conns : List ℕ)
    (hm : mapGet m.connections o = some conns) :
    m.emitStatusUpdate o openP =
      (if conns = [] then ([], m)
      else
        (conns.filter openP,
          (conns.filter (fun ws => !openP ws)).foldl
            (fun s ws => s.removeConnection o ws) m)) := by
  rw [WebSocketManager.emitStatusUpdate, hm]

/-- After `removeConnection o s`, `s` is no longer a subscriber of `o`. -/
theorem WebSocketManager.removeConnection_not_subscriber
    (m : WebSocketManager) (o : String) (s : ℕ) :
    s ∉ (m.removeConnection o s).subscribers o := by
  rcases hm : mapGet m.connections o with _ | conns
  · rw [m.removeConnection_eq_none o s hm]
    simp [WebSocketManager.subscribers, hm]
  · rw [m.removeConnection_eq_some o s conns hm]
    by_cases hempty : conns.filter (fun w => w ≠ s) = []
    · rw [if_pos hempty]
      rw [WebSocketManager.subscribers, mapGet_filter_self]
      simp
    · rw [if_neg hempty]
      rw [WebSocketManager.subscribers]
      rw [mapGet_update_self _ _ _ _ hm]
      simp

/-- `removeConnection` never adds a subscriber: anyone not subscribed to
`o` beforehand is still not subscribed afterwards. -/
theorem WebSocketManager.removeConnection_no_new_subscriber
    (m : WebSocketManager) (o' : String) (s' : ℕ) (o : String) (s : ℕ)
    (h : s ∉ m.subscribers o) :
    s ∉ (m.removeConnection o' s').subscribers o := by
  rcases hm : mapGet m.connections o' with _ | conns
  · rw [m.removeConnection_eq_none o' s' hm]
    exact h
  · rw [m.removeConnection_eq_some o' s' conns hm]
    by_cases hempty : conns.filter (fun w => w ≠ s') = []
    · rw [if_pos hempty]
      by_cases ho : o = o'
      · subst ho
        rw [WebSocketManager.subscribers, mapGet_filter_self]
        simp
      · rw [WebSocketManager.subscribers]
        rw [mapGet_filter_other _ _ _ ho]
        exact h
    · rw [if_neg hempty]
      rw [WebSocketManager.subscribers]
      by_cases ho : o = o'
      · subst ho
        rw [mapGet_update_self _ _ _ _ hm]
        rw [WebSocketManager.subscribers, hm] at h
        intro hmem
        exact h (List.mem_filter.1 hmem).1
      · rw [mapGet_update_other _ _ _ _ ho]
        exact h

/-- Pruning a batch of sockets via `removeConnection` never adds a
subscriber. -/
theorem WebSocketManager.foldl_remove_no_new (ws : List ℕ) :
    ∀ (m : WebSocketManager) (o' o : String) (s : ℕ),
    s ∉ m.subscribers o →
    s ∉ ((ws.foldl (fun st w => st.removeConnection o' w) m).subscribers o) := by
  induction ws with
  | nil => intro m o' o s h; exact h
  | cons w rest ih =>
    intro m o' o s h
    exact ih (m.removeConnection o' w) o' o s
      (m.removeConnection_no_new_subscriber o' w o s h)

/-- An emission for `o` sends only to current subscribers of `o`, and
never adds a subscriber. -/
theorem WebSocketManager.emitStatusUpdate_skips_removed
    (m : WebSocketManager) (o : String) (openP : ℕ → Bool) (s : ℕ)
    (h : s ∉ m.subscribers o) :
    s ∉ (m.emitStatusUpdate o openP).1 ∧
    s ∉ ((m.emitStatusUpdate o openP).2).subscribers o := by
  rcases hm : mapGet m.connections o with _ | conns
  · rw [m.emitStatusUpdate_eq_none o openP hm]
    exact ⟨by simp, h⟩
  · rw [m.emitStatusUpdate_eq_some o openP conns hm]
    have hconns : conns = m.subscribers o := by
      rw [WebSocketManager.subscribers, hm]
      rfl
    by_cases hempty : conns = []
    · rw [if_pos hempty]
      exact ⟨by simp, h⟩
    · rw [if_neg hempty]
      constructor
      · intro hmem
        exact h (hconns ▸ (List.mem_filter.1 hmem).1)
      · exact WebSocketManager.foldl_remove_no_new _ m o o s h

/-- C9: after `removeConnection o s` the subscriber `s` is no longer
registered for `o` (conjunct 1); no `removeConnection` for any order adds
a subscriber (conjunct 2); an emission for `o` sends only to currently
registered subscribers of `o` and never adds one, so a detached
subscriber is not sent to by any subsequent emission unless re-attached
(conjunct 3); and after `closeAll` the total subscriber count is zero
(conjunct 4). -/
theorem streamHub_detach_then_silent_and_closeAll_empties :
    (∀ (m : WebSocketManager) (o : String) (s : ℕ),
      s ∉ (m.removeConnection o s).subscribers o) ∧
    (∀ (m : WebSocketManager) (o' : String) (s' : ℕ) (o : String) (s : ℕ),
      s ∉ m.subscribers o → s ∉ (m.removeConnection o' s').subscribers o) ∧
    (∀ (m : WebSocketManager) (o : String) (openP : ℕ → Bool) (s : ℕ),
      s ∉ m.subscribers o →
      s ∉ (m.emitStatusUpdate o openP).1 ∧
      s ∉ ((m.emitStatusUpdate o openP).2).subscribers o) ∧
    (∀ m : WebSocketManager, m.closeAll.getTotalConnectionCount = 0) :=
  ⟨WebSocketManager.removeConnection_not_subscriber,
    WebSocketManager.removeConnection_no_new_subscriber,
    WebSocketManager.emitStatusUpdate_skips_removed,
    fun _ => rfl⟩

/-- Witness for `streamHub_detach_then_silent_and_closeAll_empties` on a
hub tracking sockets 1 and 2 for "order-1": after detaching socket 1, an
emission neither sends to it nor re-adds it, and `closeAll` leaves zero
subscribers. -/
theorem streamHub_detach_then_silent_witness :
    1 ∉ ((WebSocketManager.mk [("order-1", [1, 2])]).removeConnection
      "order-1" 1).subscribers "order-1" ∧
    (1 ∉ (((WebSocketManager.mk [("order-1", [1, 2])]).removeConnection
        "order-1" 1).emitStatusUpdate "order-1" (fun _ => true)).1 ∧
      1 ∉ ((((WebSocketManager.mk [("order-1", [1, 2])]).removeConnection
        "order-1" 1).emitStatusUpdate "order-1"
          (fun _ => true)).2).subscribers "order-1") ∧
    (WebSocketManager.mk
      [("order-1", [1, 2])]).closeAll.getTotalConnectionCount = 0 := by
  have h := streamHub_detach_then_silent_and_closeAll_empties
  have h1 := h.1 (WebSocketManager.mk [("order-1", [1, 2])]) "order-1" 1
  exact ⟨h1,
    h.2.2.1 ((WebSocketManager.mk [("order-1", [1, 2])]).removeConnection
      "order-1" 1) "order-1" (fun _ => true) 1 h1,
    h.2.2.2 (WebSocketManager.mk [("order-1", [1, 2])])⟩

/-- C10: constructing an `OrderExecutor` with a configured
`defaultSlippage` of 0 and `maxSlippage` of 0 silently yields the
defaults 0.01 and 0.1 (the `||` falsy fallback, conjunct 1); by contrast
an explicit slippage argument is honoured — the result never depends on
the configured default (conjunct 2) and an explicit slippage of 0
produces `minAmountOut = ⌊estimatedOutput⌋` with no rejection
(conjunct 3); only an absent slippage falls back to the configured
default (conjunct 4). -/
theorem orderExecutor_zero_config_replaced_but_zero_argument_honoured :
    mkOrderExecutor { defaultSlippage := some 0, maxSlippage := some 0 } =
      { defaultSlippage := 1/100, maxSlippage := 1/10 } ∧
    (∀ (adapter : SwapParams → Except String SwapResult) (quote : DexQuote)
        (tokenIn tokenOut : String) (amount d d' maxS s : ℚ),
      executeSwap ⟨d, maxS⟩ adapter quote tokenIn tokenOut amount (some s) =
        executeSwap ⟨d', maxS⟩ adapter quote tokenIn tokenOut amount (some s)) ∧
    (∀ (this : OrderExecutor) (adapter : SwapParams → Except String SwapResult)
        (quote : DexQuote) (tokenIn tokenOut : String) (amount : ℚ),
      0 ≤ this.maxSlippage →
      (executeSwap this adapter quote tokenIn tokenOut amount (some 0)).2 =
        [⟨quote.dex, tokenIn, tokenOut, amount, ⌊quote.estimatedOutput⌋,
          quote.poolId⟩]) ∧
    (∀ (this : OrderExecutor) (adapter : SwapParams → Except String SwapResult)
        (quote : DexQuote) (tokenIn tokenOut : String) (amount : ℚ),
      executeSwap this adapter quote tokenIn tokenOut amount none =
        executeSwap this adapter quote tokenIn tokenOut amount
          (some this.defaultSlippage)) := by
  refine ⟨by norm_num [mkOrderExecutor, jsNumOr], fun _ _ _ _ _ _ _ _ _ => rfl,
    ?_, fun _ _ _ _ _ _ => rfl⟩
  intro this adapter quote tokenIn tokenOut amount hmax
  have hguard : ¬((0 : ℚ) < 0 || this.maxSlippage < 0) = true := by
    simp [not_lt.2 hmax]
  have hfloor : calculateMinAmountOut quote.estimatedOutput 0 =
      ⌊quote.estimatedOutput⌋ := by
    rw [calculateMinAmountOut]
    norm_num
  rw [executeSwap]
  simp only [if_neg hguard, hfloor]
  rcases hcall : adapter ⟨quote.dex, tokenIn, tokenOut, amount,
      ⌊quote.estimatedOutput⌋, quote.poolId⟩ with msg | r
  · simp only [hcall]
    split <;> rfl
  · simp [hcall]

/-- Witness for
`orderExecutor_zero_config_replaced_but_zero_argument_honoured`:
an executor with maxSlippage 0.1 given the explicit slippage 0 records
`minAmountOut = ⌊1010000⌋` against sample quote B. -/
theorem orderExecutor_zero_argument_honoured_witness :
    (executeSwap sampleExecutor (fun _ => .error "network unreachable")
        sampleQuoteB "tokA" "tokB" 1000000 (some 0)).2 =
      [⟨sampleQuoteB.dex, "tokA", "tokB", 1000000,
        ⌊sampleQuoteB.estimatedOutput⌋, sampleQuoteB.poolId⟩] := by
  exact orderExecutor_zero_config_replaced_but_zero_argument_honoured.2.2.1
    sampleExecutor (fun _ => .error "network unreachable") sampleQuoteB
    "tokA" "tokB" 1000000 (by decide)
